import Mathlib

/-!
Verification of the chess-server core: SessionManager, RoomManager,
ChessGameEngine and the WebSocketHandler dispatcher, shallowly embedded
from the TypeScript sources.  JavaScript strings are modelled as Lean
strings; JS `Map`s as association lists with first-match lookup and
in-place replacement; nondeterministic id generation (`Date.now` +
random suffix) and timestamps are passed in as explicit arguments.
-/

namespace ChessServer

/-! ### JavaScript string primitives

`String.prototype.trim` and the regex class `\s` both use the ECMAScript
WhiteSpace ∪ LineTerminator set; we model that set by `isJsWhitespace`. -/

/-- The ECMAScript whitespace set used by both `trim` and regex `\s`:
TAB, LF, VT, FF, CR, SP, NBSP, BOM, the Unicode Zs spaces, LS and PS. -/
def isJsWhitespace (c : Char) : Bool :=
  c = '\u0009' || c = '\u000a' || c = '\u000b' || c = '\u000c' || c = '\u000d' ||
  c = '\u0020' || c = '\u00a0' || c = '\u1680' ||
  ('\u2000' ≤ c && c ≤ '\u200a') ||
  c = '\u2028' || c = '\u2029' || c = '\u202f' || c = '\u205f' || c = '\u3000' ||
  c = '\ufeff'

/-- JavaScript `String.prototype.trim`: drop this whitespace from both ends. -/
def jsTrim (s : String) : String :=
  ⟨((s.data.dropWhile isJsWhitespace).reverse.dropWhile isJsWhitespace).reverse⟩

/-! ### JS `Map` objects as association lists -/

/-- `Map.prototype.get`. -/
def aget {α : Type} : List (String × α) → String → Option α
  | [], _ => none
  | (k, v) :: t, key => if k = key then some v else aget t key

/-- `Map.prototype.set`: replace the binding if the key is present,
otherwise append. -/
def aset {α : Type} : List (String × α) → String → α → List (String × α)
  | [], key, v => [(key, v)]
  | (k, w) :: t, key, v =>
      if k = key then (key, v) :: t else (k, w) :: aset t key v

/-- `Map.prototype.delete` (ignoring the returned boolean). -/
def adel {α : Type} : List (String × α) → String → List (String × α)
  | [], _ => []
  | (k, w) :: t, key => if k = key then adel t key else (k, w) :: adel t key

/-! ### Shared data model (`types/session.ts`, `types/room.ts`) -/

/-- `PlayerSession` from `types/session.ts`. -/
structure PlayerSession where
  id : String
  nickname : String
  socketId : String
  currentRoom : Option String
  createdAt : Nat
deriving DecidableEq

/-- A player colour, the values of the TS literal type `'white' | 'black'`. -/
inductive Color where
  | white
  | black
deriving DecidableEq

/-- `GameResult.winner`: `'white' | 'black' | 'draw'`. -/
inductive Winner where
  | white
  | black
  | draw
deriving DecidableEq

/-- `GameResult.reason`: `'checkmate' | 'resignation' | 'draw' | 'stalemate'`. -/
inductive GameEndReason where
  | checkmate
  | resignation
  | draw
  | stalemate
deriving DecidableEq

/-- `GameResult` from `types/room.ts`. -/
structure GameResult where
  winner : Winner
  reason : GameEndReason
deriving DecidableEq

/-- `ChessMove` from `types/room.ts`; the source field `from` is a Lean
keyword and is rendered `fromSq`; likewise `to` is rendered `toSq`. -/
structure ChessMove where
  fromSq : String
  toSq : String
  piece : String
  timestamp : Nat
deriving DecidableEq

/-- `ChessGameState` from `types/room.ts`. -/
structure ChessGameState where
  fen : String
  turn : Color
  moveHistory : List ChessMove
  isCheck : Bool
  isCheckmate : Bool
  isStalemate : Bool
  drawOffered : Bool
deriving DecidableEq

/-- `GameRoom` from `types/room.ts`.  The status is kept as the literal
string the source stores: `"waiting"`, `"active"` or `"finished"`. -/
structure GameRoom where
  id : String
  password : String
  players : List (String × Color)
  gameState : Option ChessGameState
  createdAt : Nat
  status : String
deriving DecidableEq

/-- `SessionValidationResult` / `RoomValidationResult`. -/
structure ValidationResult where
  isValid : Bool
  error : Option String
deriving DecidableEq

/-! ### SessionManager (`managers/SessionManager.ts`) -/

/-- The character class of the nickname regex
`/^[a-zA-Z0-9\s_-]+$/` (note `\s`, the full JS whitespace class). -/
def isNicknameChar (c : Char) : Bool :=
  ('a' ≤ c && c ≤ 'z') || ('A' ≤ c && c ≤ 'Z') || ('0' ≤ c && c ≤ '9') ||
  isJsWhitespace c || c = '_' || c = '-'

/-- `SessionManager.validateNickname`.  The `null`/`undefined`/typeof guard
cannot fire for a Lean `String` and is omitted. -/
def validateNickname (nickname : String) : ValidationResult :=
  let trimmedNickname := jsTrim nickname
  if trimmedNickname.length = 0 then
    ⟨false, some "Nickname cannot be empty"⟩
  else if trimmedNickname.length < 2 then
    ⟨false, some "Nickname must be at least 2 characters long"⟩
  else if trimmedNickname.length > 20 then
    ⟨false, some "Nickname must be 20 characters or less"⟩
  else if !(trimmedNickname.data ≠ [] && trimmedNickname.data.all isNicknameChar) then
    ⟨false, some "Nickname can only contain letters, numbers, spaces, underscores, and hyphens"⟩
  else
    ⟨true, none⟩

/-- The two private maps of `SessionManager`. -/
structure SessionManagerState where
  sessions : List (String × PlayerSession)
  socketToSessionId : List (String × String)
deriving DecidableEq

/-- `SessionManager.createSession`; the generated session id and the
`Date.now()` timestamp are explicit arguments, and the thrown validation
`Error` is an `Except.error`. -/
def createSession (s : SessionManagerState) (sessionId nickname socketId : String)
    (now : Nat) : Except String (PlayerSession × SessionManagerState) :=
  let validation := validateNickname nickname
  if validation.isValid = false then
    .error (validation.error.getD "Invalid nickname")
  else
    let session : PlayerSession :=
      ⟨sessionId, jsTrim nickname, socketId, none, now⟩
    .ok (session,
      ⟨aset s.sessions sessionId session,
       aset s.socketToSessionId socketId sessionId⟩)

/-- `SessionManager.getSession`. -/
def getSession (s : SessionManagerState) (socketId : String) : Option PlayerSession :=
  match aget s.socketToSessionId socketId with
  | none => none
  | some sessionId => aget s.sessions sessionId

/-- `SessionManager.getSessionById`. -/
def getSessionById (s : SessionManagerState) (sessionId : String) : Option PlayerSession :=
  aget s.sessions sessionId

/-- `SessionManager.removeSession`. -/
def removeSession (s : SessionManagerState) (socketId : String) :
    Bool × SessionManagerState :=
  match aget s.socketToSessionId socketId with
  | none => (false, s)
  | some sessionId =>
      (true, ⟨adel s.sessions sessionId, adel s.socketToSessionId socketId⟩)

/-- `SessionManager.updateSessionRoom`. -/
def updateSessionRoom (s : SessionManagerState) (socketId : String)
    (roomId : Option String) : Bool × SessionManagerState :=
  match aget s.socketToSessionId socketId with
  | none => (false, s)
  | some sessionId =>
      match aget s.sessions sessionId with
      | none => (false, s)
      | some session =>
          (true, { s with
            sessions := aset s.sessions sessionId { session with currentRoom := roomId } })

/-! ### RoomManager (`managers/RoomManager.ts`, src/unnamed/part_002) -/

/-- `RoomJoinResult` from `types/room.ts`. -/
structure RoomJoinResult where
  success : Bool
  playerColor : Option Color
  error : Option String
deriving DecidableEq

/-- The two private maps of `RoomManager`. -/
structure RoomManagerState where
  rooms : List (String × GameRoom)
  playerToRoom : List (String × String)
deriving DecidableEq

/-- `RoomManager.validatePassword`.  The `null`/`undefined`/typeof guard
cannot fire for a Lean `String` and is omitted. -/
def validatePassword (password : String) : ValidationResult :=
  let trimmedPassword := jsTrim password
  if trimmedPassword.length = 0 then
    ⟨false, some "Password cannot be empty"⟩
  else if trimmedPassword.length < 3 then
    ⟨false, some "Password must be at least 3 characters long"⟩
  else if trimmedPassword.length > 50 then
    ⟨false, some "Password must be 50 characters or less"⟩
  else
    ⟨true, none⟩

/-- `RoomManager.createRoom`; the generated room id and the `Date.now()`
timestamp are explicit arguments, the thrown validation `Error` is an
`Except.error`. -/
def createRoom (s : RoomManagerState) (roomId password creatorSessionId : String)
    (now : Nat) : Except String (GameRoom × RoomManagerState) :=
  let validation := validatePassword password
  if validation.isValid = false then
    .error (validation.error.getD "Invalid password")
  else
    let room : GameRoom :=
      { id := roomId
        password := jsTrim password
        players := [(creatorSessionId, Color.white)]
        gameState := none
        createdAt := now
        status := "waiting" }
    .ok (room,
      ⟨aset s.rooms roomId room, aset s.playerToRoom creatorSessionId roomId⟩)

/-- `RoomManager.joinRoom`. -/
def joinRoom (s : RoomManagerState) (roomId password playerSessionId : String) :
    RoomJoinResult × RoomManagerState :=
  match aget s.rooms roomId with
  | none => (⟨false, none, some "Room not found"⟩, s)
  | some room =>
    if room.password ≠ jsTrim password then
      (⟨false, none, some "Incorrect password"⟩, s)
    else
      match room.players.find? (fun p => p.1 = playerSessionId) with
      | some existingPlayer => (⟨true, some existingPlayer.2, none⟩, s)
      | none =>
        if room.players.length ≥ 2 then
          (⟨false, none, some "Room is full"⟩, s)
        else
          let players := room.players ++ [(playerSessionId, Color.black)]
          let room' := { room with
            players := players
            status := if players.length = 2 then "active" else room.status }
          (⟨true, some Color.black, none⟩,
           ⟨aset s.rooms roomId room',
            aset s.playerToRoom playerSessionId roomId⟩)

/-- `RoomManager.leaveRoom`. -/
def leaveRoom (s : RoomManagerState) (sessionId : String) :
    Bool × RoomManagerState :=
  match aget s.playerToRoom sessionId with
  | none => (false, s)
  | some roomId =>
    match aget s.rooms roomId with
    | none => (false, s)
    | some room =>
      let players := room.players.filter (fun p => p.1 ≠ sessionId)
      let p2r := adel s.playerToRoom sessionId
      if players.length = 0 then
        (true, ⟨adel s.rooms roomId, p2r⟩)
      else
        (true, ⟨aset s.rooms roomId { room with players := players, status := "waiting" }, p2r⟩)

/-- `RoomManager.getRoomState`. -/
def getRoomState (s : RoomManagerState) (roomId : String) : Option GameRoom :=
  aget s.rooms roomId

/-- `RoomManager.isRoomFull`. -/
def isRoomFull (s : RoomManagerState) (roomId : String) : Bool :=
  match aget s.rooms roomId with
  | some room => room.players.length ≥ 2
  | none => false

/-- `RoomManager.getPlayerRoom`. -/
def getPlayerRoom (s : RoomManagerState) (sessionId : String) : Option String :=
  aget s.playerToRoom sessionId

/-- The hard-coded 24-hour age limit of `cleanupExpiredRooms`, in ms. -/
def roomMaxAge : Nat := 24 * 60 * 60 * 1000

/-- `RoomManager.cleanupExpiredRooms`; `now` is `Date.now()`.  Iterating a
JS `Map` while deleting visited expired entries keeps exactly the
non-expired ones and unmaps every player of an expired room.  JS computes
`now - room.createdAt` over floats, negative when the room is younger than
`now`; truncated `Nat` subtraction gives the same comparison outcome. -/
def cleanupExpiredRooms (s : RoomManagerState) (now : Nat) :
    Nat × RoomManagerState :=
  let expired := s.rooms.filter (fun kv => now - kv.2.createdAt > roomMaxAge)
  let kept := s.rooms.filter (fun kv => ¬ (now - kv.2.createdAt > roomMaxAge))
  let p2r := expired.foldl
    (fun m kv => kv.2.players.foldl (fun m' p => adel m' p.1) m)
    s.playerToRoom
  (expired.length, ⟨kept, p2r⟩)

/-! ### ChessGameEngine (`managers/ChessGameEngine.ts`)

The chess-legality library (`chess.js`) is an external collaborator; it is
modelled as an abstract interface over an opaque engine-state type. -/

/-- The operations `ChessGameEngine` invokes on a `chess.js` instance.
`move` returns the piece of the applied move together with the mutated
instance, or `none` when `chess.move` rejects or throws. -/
structure ChessLib (χ : Type) where
  newGame : χ
  fen : χ → String
  turnIsWhite : χ → Bool
  move : χ → String → String → Option (String × χ)
  inCheck : χ → Bool
  isCheckmate : χ → Bool
  isStalemate : χ → Bool
  isDraw : χ → Bool

/-- The three private maps of `ChessGameEngine`. -/
structure EngineState (χ : Type) where
  games : List (String × χ)
  gameStates : List (String × ChessGameState)
  drawOffers : List (String × String)

/-- `ChessGameEngine.getPlayerColor`.  The source is a placeholder whose
body is `return null` — its comment says a real implementation would look
the colour up from the room data. -/
def getPlayerColor (_roomId _playerId : String) : Option Color :=
  none

/-- `ChessGameEngine.initializeGame`. -/
def initializeGame {χ : Type} (lib : ChessLib χ) (s : EngineState χ)
    (roomId _whitePlayerId _blackPlayerId : String) : EngineState χ :=
  let chess := lib.newGame
  let initialState : ChessGameState :=
    { fen := lib.fen chess
      turn := Color.white
      moveHistory := []
      isCheck := false
      isCheckmate := false
      isStalemate := false
      drawOffered := false }
  { games := aset s.games roomId chess
    gameStates := aset s.gameStates roomId initialState
    drawOffers := adel s.drawOffers roomId }

/-- `ChessGameEngine.makeMove`; `now` is the `Date.now()` timestamp the
source assigns to the recorded move. -/
def makeMove {χ : Type} (lib : ChessLib χ) (s : EngineState χ)
    (roomId playerId : String) (move : ChessMove) (now : Nat) :
    Bool × EngineState χ :=
  match aget s.games roomId, aget s.gameStates roomId with
  | some chess, some gameState =>
    match getPlayerColor roomId playerId with
    | none => (false, s)
    | some playerColor =>
      if playerColor ≠ gameState.turn then (false, s)
      else
        match lib.move chess move.fromSq move.toSq with
        | none => (false, s)
        | some (piece, chess') =>
          let updatedMove : ChessMove :=
            { fromSq := move.fromSq, toSq := move.toSq, piece := piece, timestamp := now }
          let gameState' : ChessGameState :=
            { fen := lib.fen chess'
              turn := if lib.turnIsWhite chess' then Color.white else Color.black
              moveHistory := gameState.moveHistory ++ [updatedMove]
              isCheck := lib.inCheck chess'
              isCheckmate := lib.isCheckmate chess'
              isStalemate := lib.isStalemate chess'
              drawOffered := false }
          (true,
           { games := aset s.games roomId chess'
             gameStates := aset s.gameStates roomId gameState'
             drawOffers := adel s.drawOffers roomId })
  | _, _ => (false, s)

/-- `ChessGameEngine.getGameState`. -/
def getGameState {χ : Type} (s : EngineState χ) (roomId : String) :
    Option ChessGameState :=
  aget s.gameStates roomId

/-- `ChessGameEngine.offerDraw`. -/
def offerDraw {χ : Type} (s : EngineState χ) (roomId playerId : String) :
    EngineState χ :=
  match aget s.gameStates roomId with
  | none => s
  | some gameState =>
    { s with
      drawOffers := aset s.drawOffers roomId playerId
      gameStates := aset s.gameStates roomId { gameState with drawOffered := true } }

/-- `ChessGameEngine.acceptDraw`.  The guard
`offeringPlayer && offeringPlayer !== playerId` makes the empty string a
falsy offerer, mirrored by the `≠ ""` test. -/
def acceptDraw {χ : Type} (s : EngineState χ) (roomId playerId : String) :
    Option GameResult × EngineState χ :=
  match aget s.drawOffers roomId with
  | none => (none, s)
  | some offeringPlayer =>
    if offeringPlayer ≠ "" ∧ offeringPlayer ≠ playerId then
      let s' := { s with drawOffers := adel s.drawOffers roomId }
      let s'' :=
        match aget s'.gameStates roomId with
        | none => s'
        | some gameState =>
          { s' with gameStates := aset s'.gameStates roomId { gameState with drawOffered := false } }
      (some ⟨Winner.draw, GameEndReason.draw⟩, s'')
    else
      (none, s)

/-- `ChessGameEngine.declineDraw`. -/
def declineDraw {χ : Type} (s : EngineState χ) (roomId : String) :
    EngineState χ :=
  let s' := { s with drawOffers := adel s.drawOffers roomId }
  match aget s'.gameStates roomId with
  | none => s'
  | some gameState =>
    { s' with gameStates := aset s'.gameStates roomId { gameState with drawOffered := false } }

/-- `ChessGameEngine.resign`: pure, no state change in the source. -/
def resign {χ : Type} (_s : EngineState χ) (roomId playerId : String) :
    Option GameResult :=
  match getPlayerColor roomId playerId with
  | none => none
  | some playerColor =>
    some ⟨(match playerColor with
           | Color.white => Winner.black
           | Color.black => Winner.white),
          GameEndReason.resignation⟩

/-- `ChessGameEngine.cleanupGame`. -/
def cleanupGame {χ : Type} (s : EngineState χ) (roomId : String) :
    EngineState χ :=
  { games := adel s.games roomId
    gameStates := adel s.gameStates roomId
    drawOffers := adel s.drawOffers roomId }

/-! ### WebSocketHandler (`handlers/WebSocketHandler.ts`, src/unnamed/part_003) -/

/-- The combined state the dispatcher operates on. -/
structure ServerState (χ : Type) where
  sessionState : SessionManagerState
  roomState : RoomManagerState
  engineState : EngineState χ

/-- What `handleAcceptDraw` emits back: an `error{code,message}` to the
requester, or a `draw-accepted{result,gameState}` broadcast. -/
inductive AcceptDrawOutcome where
  | errorResp (code : String) (message : String)
  | drawAccepted (result : GameResult) (gameState : Option ChessGameState)
deriving DecidableEq

/-- `WebSocketHandler.handleAcceptDraw`: resolves the session and the room,
requires status `"active"`, then calls `ChessGameEngine.acceptDraw`
directly — with no lookup of the requester in `room.players`. -/
def handleAcceptDraw {χ : Type} (s : ServerState χ) (socketId : String) :
    AcceptDrawOutcome × ServerState χ :=
  match getSession s.sessionState socketId with
  | none => (.errorResp "SESSION_NOT_FOUND" "Session or room not found", s)
  | some session =>
    match session.currentRoom with
    | none => (.errorResp "SESSION_NOT_FOUND" "Session or room not found", s)
    | some currentRoom =>
      match getRoomState s.roomState currentRoom with
      | none => (.errorResp "GAME_NOT_ACTIVE" "Game is not active", s)
      | some room =>
        if room.status ≠ "active" then
          (.errorResp "GAME_NOT_ACTIVE" "Game is not active", s)
        else
          match acceptDraw s.engineState currentRoom session.id with
          | (none, engine') =>
            (.errorResp "NO_DRAW_OFFER" "No draw offer to accept",
             { s with engineState := engine' })
          | (some drawResult, engine') =>
            let room' := { room with status := "finished" }
            (.drawAccepted drawResult (getGameState engine' currentRoom),
             { s with
               engineState := engine'
               roomState := { s.roomState with
                 rooms := aset s.roomState.rooms currentRoom room' } })

/-! ### Concrete instances used by witnesses -/

/-- A stand-in rules-engine instance for witnesses; the engine library is
an external collaborator, so theorems quantify over every `ChessLib`. -/
def unitChessLib : ChessLib Unit :=
  { newGame := ()
    fen := fun _ => "start-fen"
    turnIsWhite := fun _ => true
    move := fun _ _ _ => none
    inCheck := fun _ => false
    isCheckmate := fun _ => false
    isStalemate := fun _ => false
    isDraw := fun _ => false }

/-- The empty engine state. -/
def emptyEngine : EngineState Unit := ⟨[], [], []⟩

/-- The engine state used by the draw-protocol witnesses: one room `"r1"`
with an initialized game and no pending offer. -/
def drawEngineS : EngineState Unit :=
  ⟨[("r1", ())],
   [("r1", ⟨"start-fen", Color.white, [], false, false, false, false⟩)],
   []⟩

/-- The session of the C10 witness: bound to socket `"sockA"`, inside room
`"r1"`, with an id that is **not** one of the room's players. -/
def c10Session : PlayerSession := ⟨"sid1", "Mallory", "sockA", some "r1", 0⟩

/-- The room of the C10 witness: active, members `"w1"` and `"b1"`. -/
def c10Room : GameRoom :=
  ⟨"r1", "pw1", [("w1", Color.white), ("b1", Color.black)], none, 0, "active"⟩

/-- The full server state of the C10 witness, with a draw offer pending
from `"w1"`. -/
def c10ServerS : ServerState Unit :=
  { sessionState := ⟨[("sid1", c10Session)], [("sockA", "sid1")]⟩
    roomState := ⟨[("r1", c10Room)], [("w1", "r1"), ("b1", "r1")]⟩
    engineState :=
      ⟨[("r1", ())],
       [("r1", ⟨"start-fen", Color.white, [], false, false, false, true⟩)],
       [("r1", "w1")]⟩ }

/-! ### Claim C3 -/

/-- The empty room-manager state. -/
def rmEmpty : RoomManagerState := ⟨[], []⟩

/-- The room `createRoom` builds for password `"secret1"` and creator
`"c1"` at time 0 under room id `"r1"`. -/
def c3Room : GameRoom := ⟨"r1", "secret1", [("c1", Color.white)], none, 0, "waiting"⟩

/-- The room-manager state right after that `createRoom`. -/
def c3S1 : RoomManagerState := ⟨[("r1", c3Room)], [("c1", "r1")]⟩

/-! ### Claim C4 -/

/-- The character class of the claim's nickname pattern
`[A-Za-z0-9 _-]`, written from the spec's words for comparison with the
code's `isNicknameChar`: it admits a plain space but no other whitespace. -/
def claimedNicknameChar (c : Char) : Bool :=
  ('A' ≤ c && c ≤ 'Z') || ('a' ≤ c && c ≤ 'z') || ('0' ≤ c && c ≤ '9') ||
  c = ' ' || c = '_' || c = '-'

/-- The claim's nickname pattern `[A-Za-z0-9 _-]{2,20}`, written from the
spec's words for comparison with the code's validation. -/
def claimedNicknamePattern (s : String) : Bool :=
  decide (2 ≤ s.length) && decide (s.length ≤ 20) &&
  s.data.all claimedNicknameChar

/-- The pattern the code actually enforces on the trimmed nickname:
2–20 characters drawn from `[a-zA-Z0-9\s_-]` — `\s` being every JS
whitespace character, not just the space the claim allows. -/
def codeNicknamePattern (s : String) : Bool :=
  decide (2 ≤ s.length) && decide (s.length ≤ 20) &&
  s.data.all isNicknameChar

/-- The empty session-manager state. -/
def smEmpty : SessionManagerState := ⟨[], []⟩

/-- The room and state produced by creating `"r1"` with password
`"Secret1"` (capital S). -/
def c9Room : GameRoom := ⟨"r1", "Secret1", [("c1", Color.white)], none, 0, "waiting"⟩

/-- The room-manager state right after that create. -/
def c9S1 : RoomManagerState := ⟨[("r1", c9Room)], [("c1", "r1")]⟩

/-! ### Claim C6 -/

/-- The state transformation of `createRoom`; a thrown validation error
leaves the maps untouched. -/
def createRoomApply (s : RoomManagerState) (roomId password creatorSessionId : String)
    (now : Nat) : RoomManagerState :=
  match createRoom s roomId password creatorSessionId now with
  | .ok p => p.2
  | .error _ => s

/-- One public mutating call on `RoomManager`. -/
inductive RMStep : RoomManagerState → RoomManagerState → Prop where
  | create (s : RoomManagerState) (roomId password creatorSessionId : String) (now : Nat) :
      RMStep s (createRoomApply s roomId password creatorSessionId now)
  | join (s : RoomManagerState) (roomId password playerSessionId : String) :
      RMStep s (joinRoom s roomId password playerSessionId).2
  | leave (s : RoomManagerState) (sessionId : String) :
      RMStep s (leaveRoom s sessionId).2
  | cleanup (s : RoomManagerState) (now : Nat) :
      RMStep s (cleanupExpiredRooms s now).2

/-- Room-manager states reachable from the empty manager. -/
def RMReachable (s : RoomManagerState) : Prop :=
  Relation.ReflTransGen RMStep rmEmpty s

/-- Every stored room has 1 or 2 players. -/
def roomsSizeOK (s : RoomManagerState) : Prop :=
  ∀ kv ∈ s.rooms, 1 ≤ kv.2.players.length ∧ kv.2.players.length ≤ 2

/-! ### Claim C8 -/

/-- The state transformation of `createSession`; a thrown validation
error leaves the maps untouched. -/
def createSessionApply (s : SessionManagerState)
    (sessionId nickname socketId : String) (now : Nat) : SessionManagerState :=
  match createSession s sessionId nickname socketId now with
  | .ok p => p.2
  | .error _ => s

/-- One public mutating call on `SessionManager`, with generated session
ids assumed fresh (the source draws them from `Date.now()` plus a random
suffix). -/
inductive SMStep : SessionManagerState → SessionManagerState → Prop where
  | create (s : SessionManagerState) (sessionId nickname socketId : String)
      (now : Nat) (hfresh : aget s.sessions sessionId = none) :
      SMStep s (createSessionApply s sessionId nickname socketId now)
  | remove (s : SessionManagerState) (socketId : String) :
      SMStep s (removeSession s socketId).2

/-- Session-manager states reachable from the empty manager. -/
def SMReachable (s : SessionManagerState) : Prop :=
  Relation.ReflTransGen SMStep smEmpty s

/-- The socket index always points at a stored session carrying that
socket id. -/
def smIndexOK (s : SessionManagerState) : Prop :=
  ∀ sock id, aget s.socketToSessionId sock = some id →
    ∃ sess, aget s.sessions id = some sess ∧ sess.socketId = sock

/-! ### Theorems -/

theorem aget_aset_self {α : Type} (m : List (String × α)) (k : String) (v : α) :
    aget (aset m k v) k = some v := by
  induction m with
  | nil => simp [aset, aget]
  | cons hd t ih =>
    obtain ⟨k', w⟩ := hd
    by_cases h : k' = k <;> simp [aset, aget, h, ih]

theorem aget_aset_ne {α : Type} (m : List (String × α)) (k k' : String) (v : α)
    (h : k ≠ k') : aget (aset m k v) k' = aget m k' := by
  induction m with
  | nil => simp [aset, aget, h]
  | cons hd t ih =>
    obtain ⟨k'', w⟩ := hd
    by_cases h2 : k'' = k
    · subst h2
      simp [aset, aget, h]
    · simp [aset, aget, h2, ih]

theorem aget_adel_self {α : Type} (m : List (String × α)) (k : String) :
    aget (adel m k) k = none := by
  induction m with
  | nil => simp [adel, aget]
  | cons hd t ih =>
    obtain ⟨k', w⟩ := hd
    by_cases h : k' = k <;> simp [adel, aget, h, ih]

theorem aget_adel_ne {α : Type} (m : List (String × α)) (k k' : String)
    (h : k ≠ k') : aget (adel m k) k' = aget m k' := by
  induction m with
  | nil => simp [adel, aget]
  | cons hd t ih =>
    obtain ⟨k'', w⟩ := hd
    by_cases h2 : k'' = k
    · subst h2
      simp [adel, aget, h, ih]
    · by_cases h3 : k'' = k'
      · subst h3
        simp [adel, aget, h2]
      · simp [adel, aget, h2, h3, ih]

theorem aget_mem {α : Type} {m : List (String × α)} {k : String} {v : α}
    (h : aget m k = some v) : (k, v) ∈ m := by
  induction m with
  | nil => simp [aget] at h
  | cons hd t ih =>
    obtain ⟨k', w⟩ := hd
    by_cases h2 : k' = k
    · subst h2
      simp [aget] at h
      simp [h]
    · simp [aget, h2] at h
      exact List.mem_cons_of_mem _ (ih h)

theorem mem_aset {α : Type} {m : List (String × α)} {k : String} {v : α}
    {x : String × α} (h : x ∈ aset m k v) : x = (k, v) ∨ x ∈ m := by
  induction m with
  | nil => simpa [aset] using h
  | cons hd t ih =>
    obtain ⟨k', w⟩ := hd
    by_cases h2 : k' = k
    · subst h2
      simp [aset] at h
      rcases h with h | h
      · exact Or.inl h
      · exact Or.inr (List.mem_cons_of_mem _ h)
    · simp [aset, h2] at h
      rcases h with h | h
      · exact Or.inr (by simp [h])
      · rcases ih h with h3 | h3
        · exact Or.inl h3
        · exact Or.inr (List.mem_cons_of_mem _ h3)

theorem mem_adel {α : Type} {m : List (String × α)} {k : String}
    {x : String × α} (h : x ∈ adel m k) : x ∈ m := by
  induction m with
  | nil => simp [adel] at h
  | cons hd t ih =>
    obtain ⟨k', w⟩ := hd
    by_cases h2 : k' = k
    · subst h2
      simp [adel] at h
      exact List.mem_cons_of_mem _ (ih h)
    · simp [adel, h2] at h
      rcases h with h | h
      · simp [h]
      · exact List.mem_cons_of_mem _ (ih h)

/-- Claim C1 (code bug): the spec says that from the standard start
position white's `e2→e4` succeeds, flips the turn and appends to the
history; the code's `makeMove` instead rejects every move, because the
placeholder `getPlayerColor` always returns `null` and the turn guard
therefore always fails.  Right after `initializeGame`, white's move
returns `false` and the engine state is untouched. -/
theorem makeMove_always_rejected_after_initializeGame {χ : Type}
    (lib : ChessLib χ) (s : EngineState χ) (roomId wId bId : String)
    (mv : ChessMove) (now : Nat) :
    makeMove lib (initializeGame lib s roomId wId bId) roomId wId mv now =
      (false, initializeGame lib s roomId wId bId) := by
  simp [makeMove, initializeGame, aget_aset_self, getPlayerColor]

/-- Claim C2 (code bug): the spec says `resign` returns
`{winner: opposite(color), reason: resignation}` for any member of the
room and `none` only for strangers; because the placeholder
`getPlayerColor` always returns `null`, the code's `resign` returns
`none` for every caller, members included. -/
theorem resign_always_returns_none {χ : Type} (s : EngineState χ)
    (roomId playerId : String) : resign s roomId playerId = none := rfl

/-- Claim C7: whenever `makeMove` returns `false`, the engine state —
board snapshot, side to move, move history, check/checkmate/stalemate
flags and the draw-offer entry — is exactly what it was before the call. -/
theorem makeMove_false_leaves_state_unchanged {χ : Type}
    (lib : ChessLib χ) (s : EngineState χ) (roomId playerId : String)
    (mv : ChessMove) (now : Nat)
    (h : (makeMove lib s roomId playerId mv now).1 = false) :
    (makeMove lib s roomId playerId mv now).2 = s := by
  cases hg : aget s.games roomId <;>
    cases hs : aget s.gameStates roomId <;>
      simp [makeMove, hg, hs, getPlayerColor]

/-- Witness for C7 at a concrete input: the empty engine rejects a move
and the state is unchanged. -/
theorem makeMove_false_leaves_state_unchanged_witness :
    (makeMove unitChessLib emptyEngine "r1" "p1" ⟨"e2", "e4", "", 0⟩ 0).1 = false ∧
    (makeMove unitChessLib emptyEngine "r1" "p1" ⟨"e2", "e4", "", 0⟩ 0).2 = emptyEngine :=
  ⟨rfl, makeMove_false_leaves_state_unchanged unitChessLib emptyEngine "r1" "p1"
    ⟨"e2", "e4", "", 0⟩ 0 rfl⟩

/-- Claim C5: once `offerDraw(roomId, p)` has recorded an offer (the game
has a `ChessGameState` and `p` is a real, non-empty id), a self-accept by
`p` returns `none` and leaves the state — including the pending offer —
untouched, while an accept by any `q ≠ p` returns
`{winner: draw, reason: draw}`, deletes the offer entry and clears the
`drawOffered` flag. -/
theorem offerDraw_acceptDraw_protocol {χ : Type} (s : EngineState χ)
    (roomId p q : String) (gs : ChessGameState)
    (hgs : aget s.gameStates roomId = some gs) (hp : p ≠ "") (hq : q ≠ p) :
    acceptDraw (offerDraw s roomId p) roomId p = (none, offerDraw s roomId p) ∧
    (acceptDraw (offerDraw s roomId p) roomId q).1 =
      some ⟨Winner.draw, GameEndReason.draw⟩ ∧
    aget (acceptDraw (offerDraw s roomId p) roomId q).2.drawOffers roomId = none ∧
    aget (acceptDraw (offerDraw s roomId p) roomId q).2.gameStates roomId =
      some { gs with drawOffered := false } := by
  have h1 : offerDraw s roomId p =
      { s with
        drawOffers := aset s.drawOffers roomId p
        gameStates := aset s.gameStates roomId { gs with drawOffered := true } } := by
    simp [offerDraw, hgs]
  refine ⟨?_, ?_, ?_, ?_⟩ <;>
    simp [h1, acceptDraw, aget_aset_self, aget_adel_self, hp, Ne.symm hq,
      aget_adel_ne]

/-- Witness for C5 at concrete inputs. -/
theorem offerDraw_acceptDraw_protocol_witness :
    acceptDraw (offerDraw drawEngineS "r1" "p1") "r1" "p1" =
      (none, offerDraw drawEngineS "r1" "p1") ∧
    (acceptDraw (offerDraw drawEngineS "r1" "p1") "r1" "p2").1 =
      some ⟨Winner.draw, GameEndReason.draw⟩ ∧
    aget (acceptDraw (offerDraw drawEngineS "r1" "p1") "r1" "p2").2.drawOffers "r1" = none ∧
    aget (acceptDraw (offerDraw drawEngineS "r1" "p1") "r1" "p2").2.gameStates "r1" =
      some { fen := "start-fen", turn := Color.white, moveHistory := [],
             isCheck := false, isCheckmate := false, isStalemate := false,
             drawOffered := false } :=
  offerDraw_acceptDraw_protocol drawEngineS "r1" "p1" "p2"
    ⟨"start-fen", Color.white, [], false, false, false, false⟩
    rfl (by decide) (by decide)

/-- Claim C10: `acceptDraw` never consults room membership, and the
dispatcher's accept-draw path does not look the requester up in
`room.players` either: with an offer pending from `offerer`, a requester
whose session id is **not** among the room's players still gets
`draw-accepted {winner: draw, reason: draw}`. -/
theorem handleAcceptDraw_ignores_membership {χ : Type} (s : ServerState χ)
    (socketId roomId : String) (session : PlayerSession) (room : GameRoom)
    (offerer : String)
    (hsess : getSession s.sessionState socketId = some session)
    (hcur : session.currentRoom = some roomId)
    (hroom : getRoomState s.roomState roomId = some room)
    (hstatus : room.status = "active")
    (hnotmember : ∀ p ∈ room.players, p.1 ≠ session.id)
    (hoffer : aget s.engineState.drawOffers roomId = some offerer)
    (hne0 : offerer ≠ "") (hne : offerer ≠ session.id) :
    (handleAcceptDraw s socketId).1 =
      .drawAccepted ⟨Winner.draw, GameEndReason.draw⟩
        (getGameState (acceptDraw s.engineState roomId session.id).2 roomId) := by
  rcases hAD : acceptDraw s.engineState roomId session.id with ⟨res, engine2⟩
  have h1 : res = some ⟨Winner.draw, GameEndReason.draw⟩ := by
    have h2 := congrArg Prod.fst hAD
    simp [acceptDraw, hoffer, hne0, hne] at h2
    exact h2.symm
  subst h1
  simp [handleAcceptDraw, hsess, hcur, hroom, hstatus, hAD]

/-- Witness for C10: the non-member requester still gets `draw-accepted`. -/
theorem handleAcceptDraw_ignores_membership_witness :
    (handleAcceptDraw c10ServerS "sockA").1 =
      .drawAccepted ⟨Winner.draw, GameEndReason.draw⟩
        (getGameState (acceptDraw c10ServerS.engineState "r1" "sid1").2 "r1") :=
  handleAcceptDraw_ignores_membership c10ServerS "sockA" "r1" c10Session c10Room
    "w1" rfl rfl rfl rfl (by decide) rfl (by decide) (by decide)

/-- Claim C3, counterexample: after the second player joins, the stored
status is the string `"active"` — the codebase has no `"ready"` status
(`GameRoom.status` ranges over `waiting`/`active`/`finished`), so the
claim's "status becomes ready" is false as stated. -/
theorem joinRoom_status_is_active_not_ready :
    createRoom rmEmpty "r1" "secret1" "c1" 0 = .ok (c3Room, c3S1) ∧
    (joinRoom c3S1 "r1" "secret1" "p2").1.success = true ∧
    (joinRoom c3S1 "r1" "secret1" "p2").1.playerColor = some Color.black ∧
    (getRoomState (joinRoom c3S1 "r1" "secret1" "p2").2 "r1").map GameRoom.status =
      some "active" ∧
    ("active" : String) ≠ "ready" :=
  ⟨rfl, rfl, rfl, rfl, by decide⟩

/-- Claim C3 as amended: under the same premises the joiner is added with
colour black, and when the room then holds 2 players its status becomes
`"active"` (the state the spec calls `ready`). -/
theorem joinRoom_adds_black_and_activates (s : RoomManagerState)
    (roomId password playerSessionId : String) (room : GameRoom)
    (hroom : aget s.rooms roomId = some room)
    (hpw : room.password = jsTrim password)
    (hmem : room.players.find? (fun p => p.1 = playerSessionId) = none)
    (hlen : room.players.length < 2) :
    (joinRoom s roomId password playerSessionId).1.success = true ∧
    (joinRoom s roomId password playerSessionId).1.playerColor = some Color.black ∧
    ∃ room', aget (joinRoom s roomId password playerSessionId).2.rooms roomId = some room' ∧
      room'.players = room.players ++ [(playerSessionId, Color.black)] ∧
      (room'.players.length = 2 → room'.status = "active") := by
  have h2 : ¬ (room.players.length ≥ 2) := by omega
  refine ⟨?_, ?_, ?_⟩ <;>
    simp [joinRoom, hroom, hpw, hmem, h2, aget_aset_self]
  intro hlen2
  simp [hlen2]

/-- Witness for the amended C3 at the concrete post-create state. -/
theorem joinRoom_adds_black_and_activates_witness :
    (joinRoom c3S1 "r1" "secret1" "p2").1.success = true ∧
    (joinRoom c3S1 "r1" "secret1" "p2").1.playerColor = some Color.black ∧
    ∃ room', aget (joinRoom c3S1 "r1" "secret1" "p2").2.rooms "r1" = some room' ∧
      room'.players = c3Room.players ++ [("p2", Color.black)] ∧
      (room'.players.length = 2 → room'.status = "active") :=
  joinRoom_adds_black_and_activates c3S1 "r1" "secret1" "p2" c3Room
    rfl (by decide) (by decide) (by decide)

/-- Claim C4, counterexample: `"a\tb"` — its trimmed value contains a TAB
and therefore does not match the claim's pattern `[A-Za-z0-9 _-]{2,20}`,
yet `createSession` accepts it (the code's regex class is `\s`, which
matches TAB) and stores it. -/
theorem createSession_accepts_tab_nickname :
    claimedNicknamePattern (jsTrim "a\tb") = false ∧
    (createSession smEmpty "id1" "a\tb" "sockA" 0).toOption.map
        (fun p => p.1.nickname) = some "a\tb" := by
  refine ⟨?_, ?_⟩ <;> decide

/-- `validateNickname` succeeds exactly on trimmed nicknames of 2–20
characters over the code's character class. -/
theorem validateNickname_isValid_eq (nickname : String) :
    (validateNickname nickname).isValid = codeNicknamePattern (jsTrim nickname) := by
  have hne : (jsTrim nickname).length ≠ 0 → (jsTrim nickname).data ≠ [] := by
    intro h0 hh
    exact h0 (by simp [String.length, hh])
  by_cases h0 : (jsTrim nickname).length = 0
  · have hx : ¬ (2 ≤ (jsTrim nickname).length) := by omega
    simp [validateNickname, codeNicknamePattern, h0, hx]
  · by_cases h1 : (jsTrim nickname).length < 2
    · have hx : ¬ (2 ≤ (jsTrim nickname).length) := by omega
      simp [validateNickname, codeNicknamePattern, h0, h1, hx]
    · by_cases h2 : (jsTrim nickname).length > 20
      · have hx : ¬ ((jsTrim nickname).length ≤ 20) := by omega
        simp [validateNickname, codeNicknamePattern, h0, h1, h2, hx]
      · have e2 : 2 ≤ (jsTrim nickname).length := by omega
        have e20 : (jsTrim nickname).length ≤ 20 := by omega
        by_cases h3 : (jsTrim nickname).data.all isNicknameChar
        · simp [validateNickname, codeNicknamePattern, h0, h1, h2, h3, e2, e20, hne h0]
        · simp [validateNickname, codeNicknamePattern, h0, h1, h2, h3, e2, e20, hne h0]

/-- Claim C4 as amended: replace the claim's character class with the
code's (`\s` instead of the single space): `createSession` succeeds,
storing the trimmed nickname, exactly when the trimmed value matches
`[a-zA-Z0-9\s_-]{2,20}`; otherwise it fails with the validation
message. -/
theorem createSession_ok_iff_code_pattern (s : SessionManagerState)
    (sessionId nickname socketId : String) (now : Nat) :
    (codeNicknamePattern (jsTrim nickname) = true →
      createSession s sessionId nickname socketId now =
        .ok (⟨sessionId, jsTrim nickname, socketId, none, now⟩,
             ⟨aset s.sessions sessionId ⟨sessionId, jsTrim nickname, socketId, none, now⟩,
              aset s.socketToSessionId socketId sessionId⟩)) ∧
    (codeNicknamePattern (jsTrim nickname) = false →
      createSession s sessionId nickname socketId now =
        .error ((validateNickname nickname).error.getD "Invalid nickname")) := by
  constructor
  · intro h
    have hv : (validateNickname nickname).isValid = true := by
      rw [validateNickname_isValid_eq, h]
    simp [createSession, hv]
  · intro h
    have hv : (validateNickname nickname).isValid = false := by
      rw [validateNickname_isValid_eq, h]
    simp [createSession, hv]

/-- Witness for the amended C4: the nickname `" bob "` trims to `"bob"`,
matches the code pattern and is stored trimmed. -/
theorem createSession_ok_iff_code_pattern_witness :
    codeNicknamePattern (jsTrim " bob ") = true ∧
    createSession smEmpty "id1" " bob " "sockA" 7 =
      .ok (⟨"id1", jsTrim " bob ", "sockA", none, 7⟩,
           ⟨aset smEmpty.sessions "id1" ⟨"id1", jsTrim " bob ", "sockA", none, 7⟩,
            aset smEmpty.socketToSessionId "sockA" "id1"⟩) :=
  ⟨by decide,
   (createSession_ok_iff_code_pattern smEmpty "id1" " bob " "sockA" 7).1 (by decide)⟩

/-! ### Claim C9 -/

/-- Claim C9: password handling is trim-symmetric and case-sensitive
between create and join — after a successful `createRoom` with password
`p`, a join candidate `q` triggers `"Incorrect password"` exactly when
`q.trim() ≠ p.trim()` (string equality, hence case-sensitive), and when
the trims agree the join succeeds. -/
theorem createRoom_joinRoom_password_trim_symmetric (s0 : RoomManagerState)
    (roomId p creator q pid : String) (now : Nat) (room : GameRoom)
    (s1 : RoomManagerState)
    (hcreate : createRoom s0 roomId p creator now = .ok (room, s1)) :
    ((joinRoom s1 roomId q pid).1.error = some "Incorrect password" ↔
      jsTrim q ≠ jsTrim p) ∧
    (jsTrim q = jsTrim p → (joinRoom s1 roomId q pid).1.success = true) := by
  unfold createRoom at hcreate
  by_cases hv : (validatePassword p).isValid = false
  · rw [if_pos hv] at hcreate
    exact absurd hcreate (by simp)
  · rw [if_neg hv] at hcreate
    simp only [Except.ok.injEq, Prod.mk.injEq] at hcreate
    obtain ⟨hr, hs⟩ := hcreate
    subst hr
    subst hs
    constructor
    · by_cases hqp : jsTrim q = jsTrim p
      · by_cases hc : creator = pid <;>
          simp [joinRoom, aget_aset_self, hqp, hc, List.find?]
      · have hqp2 : ¬ (jsTrim p = jsTrim q) := fun hh => hqp hh.symm
        simp [joinRoom, aget_aset_self, hqp, hqp2]
    · intro hqp
      by_cases hc : creator = pid <;>
        simp [joinRoom, aget_aset_self, hqp, hc, List.find?]

/-- Witness for C9: with stored password `"Secret1"`, the candidate
`"secret1"` (case difference only) is exactly the wrong-password case. -/
theorem createRoom_joinRoom_password_trim_symmetric_witness :
    ((joinRoom c9S1 "r1" "secret1" "p2").1.error = some "Incorrect password" ↔
      jsTrim "secret1" ≠ jsTrim "Secret1") ∧
    (jsTrim "secret1" = jsTrim "Secret1" →
      (joinRoom c9S1 "r1" "secret1" "p2").1.success = true) :=
  createRoom_joinRoom_password_trim_symmetric rmEmpty "r1" "Secret1" "c1"
    "secret1" "p2" 0 c9Room c9S1 rfl

theorem roomsSizeOK_createRoomApply (s : RoomManagerState)
    (roomId password creatorSessionId : String) (now : Nat)
    (h : roomsSizeOK s) :
    roomsSizeOK (createRoomApply s roomId password creatorSessionId now) := by
  intro kv hkv
  unfold createRoomApply createRoom at hkv
  by_cases hv : (validatePassword password).isValid = false
  · rw [if_pos hv] at hkv
    exact h kv hkv
  · rw [if_neg hv] at hkv
    rcases mem_aset hkv with h1 | h1
    · subst h1
      exact ⟨by simp, by simp⟩
    · exact h kv h1

theorem roomsSizeOK_joinRoom (s : RoomManagerState)
    (roomId password playerSessionId : String) (h : roomsSizeOK s) :
    roomsSizeOK (joinRoom s roomId password playerSessionId).2 := by
  intro kv hkv
  simp only [joinRoom] at hkv
  rcases hroom : aget s.rooms roomId with _ | room <;> simp only [hroom] at hkv
  · exact h kv hkv
  · have hb := h _ (aget_mem hroom)
    by_cases hpw : room.password ≠ jsTrim password
    · rw [if_pos hpw] at hkv
      exact h kv hkv
    · rw [if_neg hpw] at hkv
      rcases hfind : room.players.find? (fun p => p.1 = playerSessionId) with _ | ep <;>
        simp only [hfind] at hkv
      · by_cases hlen : room.players.length ≥ 2
        · rw [if_pos hlen] at hkv
          exact h kv hkv
        · rw [if_neg hlen] at hkv
          rcases mem_aset hkv with h1 | h1
          · subst h1
            refine ⟨?_, ?_⟩ <;> simp <;> omega
          · exact h kv h1
      · exact h kv hkv

theorem roomsSizeOK_leaveRoom (s : RoomManagerState) (sessionId : String)
    (h : roomsSizeOK s) : roomsSizeOK (leaveRoom s sessionId).2 := by
  intro kv hkv
  simp only [leaveRoom] at hkv
  rcases hp2r : aget s.playerToRoom sessionId with _ | roomId <;>
    simp only [hp2r] at hkv
  · exact h kv hkv
  · rcases hroom : aget s.rooms roomId with _ | room <;> simp only [hroom] at hkv
    · exact h kv hkv
    · have hb := h _ (aget_mem hroom)
      by_cases hlen : (room.players.filter (fun p => p.1 ≠ sessionId)).length = 0
      · rw [if_pos hlen] at hkv
        exact h kv (mem_adel hkv)
      · rw [if_neg hlen] at hkv
        rcases mem_aset hkv with h1 | h1
        · subst h1
          have hb1 : 1 ≤ room.players.length := hb.1
          have hb2 : room.players.length ≤ 2 := hb.2
          have hle := List.length_filter_le (fun p => p.1 ≠ sessionId) room.players
          refine ⟨?_, ?_⟩
          · show 1 ≤ (room.players.filter (fun p => p.1 ≠ sessionId)).length
            omega
          · show (room.players.filter (fun p => p.1 ≠ sessionId)).length ≤ 2
            omega
        · exact h kv h1

theorem roomsSizeOK_cleanup (s : RoomManagerState) (now : Nat)
    (h : roomsSizeOK s) : roomsSizeOK (cleanupExpiredRooms s now).2 := by
  intro kv hkv
  simp only [cleanupExpiredRooms] at hkv
  exact h kv (List.mem_of_mem_filter hkv)

/-- Claim C6: in every reachable `RoomManager` state each stored room has
between 1 and 2 players: `createRoom`, `joinRoom`, `leaveRoom` and
`cleanupExpiredRooms` preserve the bound, and since `getRoomState` reads
the store, a 0-player room (deleted on last leave) is never
retrievable. -/
theorem reachable_rooms_have_one_or_two_players (s : RoomManagerState)
    (h : RMReachable s) :
    ∀ roomId room, getRoomState s roomId = some room →
      1 ≤ room.players.length ∧ room.players.length ≤ 2 := by
  have hOK : roomsSizeOK s := by
    induction h with
    | refl =>
      intro kv hkv
      simp [rmEmpty] at hkv
    | tail hsteps hstep ih =>
      cases hstep with
      | create roomId password creatorSessionId now =>
        exact roomsSizeOK_createRoomApply _ roomId password creatorSessionId now ih
      | join roomId password playerSessionId =>
        exact roomsSizeOK_joinRoom _ roomId password playerSessionId ih
      | leave sessionId =>
        exact roomsSizeOK_leaveRoom _ sessionId ih
      | cleanup now =>
        exact roomsSizeOK_cleanup _ now ih
  intro roomId room hroom
  exact hOK (roomId, room) (aget_mem hroom)

/-- Witness for C6 at a concrete reachable state (one `createRoom` from
the empty manager). -/
theorem reachable_rooms_have_one_or_two_players_witness :
    getRoomState (createRoomApply rmEmpty "r1" "pw1" "c1" 0) "r1" =
      some ⟨"r1", "pw1", [("c1", Color.white)], none, 0, "waiting"⟩ ∧
    (1 ≤ [("c1", Color.white)].length ∧ [("c1", Color.white)].length ≤ 2) :=
  ⟨rfl,
   reachable_rooms_have_one_or_two_players
     (createRoomApply rmEmpty "r1" "pw1" "c1" 0)
     (Relation.ReflTransGen.single (RMStep.create rmEmpty "r1" "pw1" "c1" 0))
     "r1" ⟨"r1", "pw1", [("c1", Color.white)], none, 0, "waiting"⟩ rfl⟩

/-- Claim C8, counterexample: two `createSession` calls for the same
connection `"sockA"` (no intervening `removeSession`) leave **two**
stored sessions whose `socketId` is `"sockA"` — the claim's "at most 1"
bound on stored sessions fails. -/
theorem two_stored_sessions_for_one_socket :
    ((createSessionApply (createSessionApply smEmpty "id1" "alice" "sockA" 0)
        "id2" "bob" "sockA" 1).sessions.filter
      (fun kv => kv.2.socketId = "sockA")).length = 2 ∧
    ¬ (((createSessionApply (createSessionApply smEmpty "id1" "alice" "sockA" 0)
        "id2" "bob" "sockA" 1).sessions.filter
      (fun kv => kv.2.socketId = "sockA")).length ≤ 1) := by
  constructor <;> decide

theorem smIndexOK_createSessionApply (s : SessionManagerState)
    (sessionId nickname socketId : String) (now : Nat)
    (hfresh : aget s.sessions sessionId = none) (h : smIndexOK s) :
    smIndexOK (createSessionApply s sessionId nickname socketId now) := by
  intro sock id hsock
  unfold createSessionApply createSession at hsock ⊢
  by_cases hv : (validateNickname nickname).isValid = false
  · rw [if_pos hv] at hsock ⊢
    exact h sock id hsock
  · rw [if_neg hv] at hsock ⊢
    by_cases hsk : socketId = sock
    · subst hsk
      rw [aget_aset_self] at hsock
      obtain rfl : sessionId = id := by injection hsock
      exact ⟨_, aget_aset_self _ _ _, rfl⟩
    · rw [aget_aset_ne _ _ _ _ hsk] at hsock
      obtain ⟨sess, hsess, hsid⟩ := h sock id hsock
      have hne : sessionId ≠ id := by
        intro hh
        rw [hh] at hfresh
        rw [hfresh] at hsess
        exact Option.noConfusion hsess
      exact ⟨sess, by rw [aget_aset_ne _ _ _ _ hne]; exact hsess, hsid⟩

theorem smIndexOK_removeSession (s : SessionManagerState) (socketId : String)
    (h : smIndexOK s) : smIndexOK (removeSession s socketId).2 := by
  intro sock id hsock
  simp only [removeSession] at hsock ⊢
  rcases hidx : aget s.socketToSessionId socketId with _ | sid <;>
    simp only [hidx] at hsock ⊢
  · exact h sock id hsock
  · by_cases hsk : socketId = sock
    · subst hsk
      rw [aget_adel_self] at hsock
      exact Option.noConfusion hsock
    · rw [aget_adel_ne _ _ _ hsk] at hsock
      obtain ⟨sess, hsess, hsid⟩ := h sock id hsock
      have hne : sid ≠ id := by
        intro hh
        subst hh
        obtain ⟨sess0, hsess0, hsid0⟩ := h socketId sid hidx
        rw [hsess] at hsess0
        obtain rfl : sess = sess0 := by injection hsess0
        exact hsk (by rw [← hsid0]; exact hsid)
      exact ⟨sess, by rw [aget_adel_ne _ _ _ hne]; exact hsess, hsid⟩

/-- Claim C8 as amended: in every reachable `SessionManager` state
(session ids assumed fresh) each connection has at most one
**index-reachable** session: the socket index points at a stored session
whose `socketId` is that connection, `getSession` returns exactly that
session (so any session it returns carries the queried socket id), and
two distinct connections never share a session id.  The stored-session
multiset itself may hold more than one entry per socket after repeated
`createSession` calls, as the counterexample shows. -/
theorem reachable_socket_index_consistent (s : SessionManagerState)
    (h : SMReachable s) :
    (∀ sock id, aget s.socketToSessionId sock = some id →
      ∃ sess, aget s.sessions id = some sess ∧ sess.socketId = sock) ∧
    (∀ sock sess, getSession s sock = some sess → sess.socketId = sock) ∧
    (∀ sockA sockB id, aget s.socketToSessionId sockA = some id →
      aget s.socketToSessionId sockB = some id → sockA = sockB) := by
  have hOK : smIndexOK s := by
    induction h with
    | refl =>
      intro sock id hsock
      simp [smEmpty, aget] at hsock
    | tail hsteps hstep ih =>
      cases hstep with
      | create sessionId nickname socketId now hfresh =>
        exact smIndexOK_createSessionApply _ sessionId nickname socketId now hfresh ih
      | remove socketId =>
        exact smIndexOK_removeSession _ socketId ih
  refine ⟨hOK, ?_, ?_⟩
  · intro sock sess hget
    unfold getSession at hget
    rcases hidx : aget s.socketToSessionId sock with _ | sid <;>
      simp only [hidx] at hget
    · exact Option.noConfusion hget
    · obtain ⟨sess0, hsess0, hsid0⟩ := hOK sock sid hidx
      rw [hsess0] at hget
      obtain rfl : sess0 = sess := by injection hget
      exact hsid0
  · intro sockA sockB id hA hB
    obtain ⟨sessA, hsessA, hsidA⟩ := hOK sockA id hA
    obtain ⟨sessB, hsessB, hsidB⟩ := hOK sockB id hB
    rw [hsessA] at hsessB
    obtain rfl : sessA = sessB := by injection hsessB
    rw [← hsidA, ← hsidB]

/-- Witness for the amended C8 at a concrete reachable state (one
`createSession` from the empty manager): the session `getSession`
returns for `"sockA"` carries socket id `"sockA"`. -/
theorem reachable_socket_index_consistent_witness :
    (⟨"id1", "alice", "sockA", none, 0⟩ : PlayerSession).socketId = "sockA" :=
  (reachable_socket_index_consistent
    (createSessionApply smEmpty "id1" "alice" "sockA" 0)
    (Relation.ReflTransGen.single
      (SMStep.create smEmpty "id1" "alice" "sockA" 0 rfl))).2.1
    "sockA" ⟨"id1", "alice", "sockA", none, 0⟩ rfl

example : jsTrim "  ab " = "ab" := by decide

example : (validateNickname "a\tb").isValid = true := by decide

example : (validateNickname " x ").isValid = false := by decide

end ChessServer